import Mathlib

/-!
Shallow embedding of the APM32S10x SPI standard-peripheral driver
(`apm32s10x_spi.c`) and verification of its specification claims.

Registers are 16-bit (`uint16_t`); they are modelled as `Nat` with explicit
`% 2 ^ 16` truncation where the C code stores a wider intermediate into a
16-bit register.  The companion header `apm32s10x_spi.h` (bitfield layout and
enumeration constants) is not part of the provided sources; the few bit
positions and constants needed are modelled from the spec, each marked below.
-/

namespace Apm32Spi

/-- The register block of one SPI peripheral instance (`SPI_T`): control-1,
control-2, status, data, CRC polynomial, transmit-CRC and receive-CRC
registers, each a 16-bit hardware register. -/
structure SPI_T where
  CTRL1   : Nat
  CTRL2   : Nat
  STS     : Nat
  DATA    : Nat
  CRCPOLY : Nat
  TXCRC   : Nat
  RXCRC   : Nat
deriving Repr, DecidableEq

/-- The configuration descriptor (`SPI_Config_T`): eight control-1 field
encodings plus the CRC polynomial value. -/
structure SPI_Config_T where
  direction     : Nat
  mode          : Nat
  length        : Nat
  polarity      : Nat
  phase         : Nat
  nss           : Nat
  baudrateDiv   : Nat
  firstBit      : Nat
  crcPolynomial : Nat
deriving Repr, DecidableEq

/-- Bitfield write of 1 into bit `i` of a 16-bit register value (the C
`reg_B.FIELD = BIT_SET` / `= ENABLE` idiom for a one-bit field). -/
def bitSet16 (x i : Nat) : Nat := x ||| 2 ^ i

/-- Bitfield write of 0 into bit `i` of a 16-bit register value (the C
`reg_B.FIELD = BIT_RESET` / `= DISABLE` idiom for a one-bit field). -/
def bitReset16 (x i : Nat) : Nat := x &&& ((2 ^ 16 - 1) ^^^ 2 ^ i)

/-- Modelled from the spec: the header `apm32s10x_spi.h` with the `CTRL1_B`
bitfield layout is absent from the sources.  The peripheral-enable bit
`SPIEN` of control-1 sits at bit 6, inside the retained mask `0x3040`
(bits 6, 12, 13) that every `SPI_Config` call preserves. -/
def SPIEN_pos : Nat := 6

/-- Modelled from the spec: the CRC-error flag `CRCEFLG` of the status
register sits at bit 4, per the driver's flag ordering (receive-not-empty,
transmit-empty, side-channel, underrun, CRC-error, mode-fault, overrun,
busy occupying status bits 0..7). -/
def CRCEFLG_pos : Nat := 4

/-- Modelled from the spec: the transmit-DMA-request enable bit `TXDEN` of
control-2 sits at bit 1. -/
def TXDEN_pos : Nat := 1

/-- Modelled from the spec: the receive-DMA-request enable bit `RXDEN` of
control-2 sits at bit 0, distinct from `TXDEN`. -/
def RXDEN_pos : Nat := 0

/-- Modelled from the spec: the `SPI_DMA_REQ_T` enumeration constant naming
the transmit-buffer DMA request; only its distinctness from the receive
value matters to the driver code. -/
def SPI_DMA_REQ_TX : Nat := 2

/-- Modelled from the spec: the `SPI_DMA_REQ_T` enumeration constant naming
the receive-buffer DMA request. -/
def SPI_DMA_REQ_RX : Nat := 1

/-- Modelled from the spec: status-flag constants (`SPI_FLAG_T`), one bit per
condition at status bits 0..7. -/
def SPI_FLAG_RXBNE : Nat := 0x0001

/-- Modelled from the spec: transmit-buffer-empty status flag. -/
def SPI_FLAG_TXBE : Nat := 0x0002

/-- Modelled from the spec: underrun status flag. -/
def SPI_FLAG_UDR : Nat := 0x0008

/-- Modelled from the spec: CRC-error status flag (bit 4). -/
def SPI_FLAG_CRCE : Nat := 0x0010

/-- Modelled from the spec: mode-fault status flag. -/
def SPI_FLAG_ME : Nat := 0x0020

/-- Modelled from the spec: overrun status flag (bit 6). -/
def SPI_FLAG_OVR : Nat := 0x0040

/-- Modelled from the spec: interrupt-kind constants (`SPI_INT_T`) combine the
control-2 enable mask in the high byte (flag value right-shifted by 8 yields
the enable mask) with the status-flag bit in the low byte.  Overrun raises
the error interrupt (control-2 enable bit 5) with status bit 6. -/
def SPI_INT_OVR : Nat := 0x2040

/-- Modelled from the spec: transmit-buffer-empty interrupt kind, enable
bit 7 of control-2 with status bit 1. -/
def SPI_INT_TXBE : Nat := 0x8002

/-- Modelled from the spec: receive-buffer-not-empty interrupt kind, enable
bit 6 of control-2 with status bit 0. -/
def SPI_INT_RXBNE : Nat := 0x4001

/-- Modelled from the spec: CRC-error interrupt kind, error-interrupt enable
bit 5 of control-2 with status bit 4. -/
def SPI_INT_CRCE : Nat := 0x2010

/-- Modelled from the spec: default descriptor field encodings named by
`SPI_ConfigStructInit`; each reset value encodes as 0 in control-1. -/
def SPI_DIRECTION_2LINES_FULLDUPLEX : Nat := 0x0000

/-- Modelled from the spec: slave-mode encoding (reset value). -/
def SPI_MODE_SLAVE : Nat := 0x0000

/-- Modelled from the spec: 8-bit data-frame-length encoding (reset value). -/
def SPI_DATA_LENGTH_8B : Nat := 0x0000

/-- Modelled from the spec: clock-low-idle polarity encoding (reset value). -/
def SPI_CLKPOL_LOW : Nat := 0x0000

/-- Modelled from the spec: first-edge clock-phase encoding (reset value). -/
def SPI_CLKPHA_1EDGE : Nat := 0x0000

/-- Modelled from the spec: hardware NSS management encoding (reset value). -/
def SPI_NSS_HARD : Nat := 0x0000

/-- Modelled from the spec: divide-by-2 baud-rate divisor encoding (reset
value). -/
def SPI_BAUDRATE_DIV_2 : Nat := 0x0000

/-- Modelled from the spec: MSB-first bit-order encoding (reset value). -/
def SPI_FIRSTBIT_MSB : Nat := 0x0000

/-- `SPI_Config`: clear every control-1 bit outside the retained mask
`0x3040`, OR the eight descriptor field encodings into control-1 (the C code
forms the OR in `uint32_t` and stores it through a `uint16_t` cast, hence the
`% 2 ^ 16`), and write the CRC polynomial verbatim into the CRC-polynomial
register. -/
def SPI_Config (spi : SPI_T) (spiConfig : SPI_Config_T) : SPI_T :=
  let c1 := spi.CTRL1 &&& 0x3040
  let c1 := c1 |||
    ((spiConfig.direction ||| spiConfig.mode |||
      spiConfig.length ||| spiConfig.polarity |||
      spiConfig.phase ||| spiConfig.nss |||
      spiConfig.baudrateDiv ||| spiConfig.firstBit) % 2 ^ 16)
  { spi with CTRL1 := c1, CRCPOLY := spiConfig.crcPolynomial }

/-- The bitwise OR of the eight control-1 field encodings of a descriptor,
associated exactly as the source's OR chain. -/
def pack (c : SPI_Config_T) : Nat :=
  c.direction ||| c.mode ||| c.length ||| c.polarity |||
  c.phase ||| c.nss ||| c.baudrateDiv ||| c.firstBit

/-- `SPI_ConfigStructInit`: overwrite every member of the pointed-to
descriptor with its documented default.  The C function receives only the
descriptor pointer — no peripheral pointer — so it cannot touch any
register; its model maps the old descriptor value to the default one. -/
def SPI_ConfigStructInit (_spiConfig : SPI_Config_T) : SPI_Config_T :=
  { direction := SPI_DIRECTION_2LINES_FULLDUPLEX
    mode := SPI_MODE_SLAVE
    length := SPI_DATA_LENGTH_8B
    polarity := SPI_CLKPOL_LOW
    phase := SPI_CLKPHA_1EDGE
    nss := SPI_NSS_HARD
    baudrateDiv := SPI_BAUDRATE_DIV_2
    firstBit := SPI_FIRSTBIT_MSB
    crcPolynomial := 7 }

/-- `SPI_Enable`: `spi->CTRL1_B.SPIEN = BIT_SET`. -/
def SPI_Enable (spi : SPI_T) : SPI_T :=
  { spi with CTRL1 := bitSet16 spi.CTRL1 SPIEN_pos }

/-- `SPI_Disable`: `spi->CTRL1_B.SPIEN = BIT_RESET`. -/
def SPI_Disable (spi : SPI_T) : SPI_T :=
  { spi with CTRL1 := bitReset16 spi.CTRL1 SPIEN_pos }

/-- `SPI_EnableDMA`: set `TXDEN` when the request kind equals
`SPI_DMA_REQ_TX`, otherwise set `RXDEN`. -/
def SPI_EnableDMA (spi : SPI_T) (dmaReq : Nat) : SPI_T :=
  if dmaReq = SPI_DMA_REQ_TX then
    { spi with CTRL2 := bitSet16 spi.CTRL2 TXDEN_pos }
  else
    { spi with CTRL2 := bitSet16 spi.CTRL2 RXDEN_pos }

/-- `SPI_DisableDMA`: clear `TXDEN` when the request kind equals
`SPI_DMA_REQ_TX`, otherwise clear `RXDEN`. -/
def SPI_DisableDMA (spi : SPI_T) (dmaReq : Nat) : SPI_T :=
  if dmaReq = SPI_DMA_REQ_TX then
    { spi with CTRL2 := bitReset16 spi.CTRL2 TXDEN_pos }
  else
    { spi with CTRL2 := bitReset16 spi.CTRL2 RXDEN_pos }

/-- `SPI_EnableInterrupt`: `spi->CTRL2 |= (interrupt >> 8)`; the result of the
`int`-width OR is stored into the 16-bit register. -/
def SPI_EnableInterrupt (spi : SPI_T) (interrupt : Nat) : SPI_T :=
  { spi with CTRL2 := (spi.CTRL2 ||| (interrupt >>> 8)) % 2 ^ 16 }

/-- `SPI_DisableInterrupt`: `spi->CTRL2 &= ~(interrupt >> 8)`; the complement
is taken at `int` width (32 bits) and the result stored into the 16-bit
register. -/
def SPI_DisableInterrupt (spi : SPI_T) (interrupt : Nat) : SPI_T :=
  { spi with
    CTRL2 := (spi.CTRL2 &&& ((2 ^ 32 - 1) ^^^ ((interrupt >>> 8) % 2 ^ 32))) % 2 ^ 16 }

/-- `SPI_ReadStatusFlag`: `SET` exactly when `spi->STS & flag` is nonzero. -/
def SPI_ReadStatusFlag (spi : SPI_T) (flag : Nat) : Bool :=
  if spi.STS &&& flag ≠ 0 then true else false

/-- `SPI_ClearStatusFlag`: `spi->STS_B.CRCEFLG = BIT_RESET`, whatever `flag`
was requested. -/
def SPI_ClearStatusFlag (spi : SPI_T) (_flag : Nat) : SPI_T :=
  { spi with STS := bitReset16 spi.STS CRCEFLG_pos }

/-- `SPI_ReadIntFlag`: `SET` exactly when both `spi->CTRL2 & (flag >> 8)`
(the interrupt-enable mask) and `spi->STS & flag` (the status mask) are
nonzero. -/
def SPI_ReadIntFlag (spi : SPI_T) (flag : Nat) : Bool :=
  let intEnable := spi.CTRL2 &&& (flag >>> 8)
  let intStatus := spi.STS &&& flag
  if intEnable ≠ 0 ∧ intStatus ≠ 0 then true else false

/-- `SPI_ClearIntFlag`: `spi->STS_B.CRCEFLG = BIT_RESET`, whatever `flag`
was requested — textually the same body as `SPI_ClearStatusFlag`. -/
def SPI_ClearIntFlag (spi : SPI_T) (_flag : Nat) : SPI_T :=
  { spi with STS := bitReset16 spi.STS CRCEFLG_pos }

/-- `SPI_TxData`: write the value into the 16-bit data register. -/
def SPI_TxData (spi : SPI_T) (data : Nat) : SPI_T :=
  { spi with DATA := data % 2 ^ 16 }

/-- `SPI_RxData`: return the data register's content. -/
def SPI_RxData (spi : SPI_T) : Nat :=
  spi.DATA

/-- A concrete register state used to instantiate theorems with hypotheses. -/
def spiW : SPI_T := ⟨0x30FF, 11, 12, 13, 14, 15, 16⟩

/-- A concrete descriptor (master, 16-bit, clock-high, second edge, software
NSS, divide-by-32, LSB-first, CCITT polynomial) used to instantiate
`SPI_Config` theorems. -/
def cfgW : SPI_Config_T := ⟨0, 0x0104, 0x0800, 2, 1, 0x0200, 0x0018, 0x0080, 0x1021⟩

/-- Bits of a value reduced modulo `2 ^ 16`, stated on the evaluated
literal. -/
theorem testBit_mod_two_pow_16 (x j : Nat) :
    (x % 65536).testBit j = (decide (j < 16) && x.testBit j) := by
  rw [show (65536 : Nat) = 2 ^ 16 from rfl, Nat.testBit_mod_two_pow]

/-- Bits of a value reduced modulo `2 ^ 32`, stated on the evaluated
literal. -/
theorem testBit_mod_two_pow_32 (x j : Nat) :
    (x % 4294967296).testBit j = (decide (j < 32) && x.testBit j) := by
  rw [show (4294967296 : Nat) = 2 ^ 32 from rfl, Nat.testBit_mod_two_pow]

/-- Every bit below 16 of the 16-bit all-ones mask is set. -/
theorem testBit_mask_16 {j : Nat} (hj : j < 16) : Nat.testBit 65535 j = true := by
  rw [show (65535 : Nat) = 2 ^ 16 - 1 from rfl, Nat.testBit_two_pow_sub_one]
  simpa using hj

/-- Every bit below 32 of the 32-bit all-ones mask is set. -/
theorem testBit_mask_32 {j : Nat} (hj : j < 32) : Nat.testBit 4294967295 j = true := by
  rw [show (4294967295 : Nat) = 2 ^ 32 - 1 from rfl, Nat.testBit_two_pow_sub_one]
  simpa using hj

/-- C1: `SPI_Config` leaves control-1 equal to the old value masked by the
retained mask `0x3040` OR-ed with the packed descriptor fields, writes the
descriptor's CRC polynomial verbatim into the CRC-polynomial register, and
changes no other register.  The hypothesis that the packed fields fit in
16 bits holds for every descriptor using the documented bit encodings. -/
theorem SPI_Config_correct (spi : SPI_T) (c : SPI_Config_T)
    (hc : pack c < 2 ^ 16) :
    (SPI_Config spi c).CTRL1 = (spi.CTRL1 &&& 0x3040) ||| pack c ∧
    (SPI_Config spi c).CRCPOLY = c.crcPolynomial ∧
    (SPI_Config spi c).CTRL2 = spi.CTRL2 ∧
    (SPI_Config spi c).STS = spi.STS ∧
    (SPI_Config spi c).DATA = spi.DATA ∧
    (SPI_Config spi c).TXCRC = spi.TXCRC ∧
    (SPI_Config spi c).RXCRC = spi.RXCRC := by
  refine ⟨?_, rfl, rfl, rfl, rfl, rfl, rfl⟩
  show (spi.CTRL1 &&& 0x3040) ||| (pack c % 2 ^ 16) = (spi.CTRL1 &&& 0x3040) ||| pack c
  rw [Nat.mod_eq_of_lt hc]

/-- Witness for C1 at a concrete state and descriptor. -/
theorem SPI_Config_correct_witness :
    pack cfgW < 2 ^ 16 ∧
    ((SPI_Config spiW cfgW).CTRL1 = (spiW.CTRL1 &&& 0x3040) ||| pack cfgW ∧
     (SPI_Config spiW cfgW).CRCPOLY = cfgW.crcPolynomial ∧
     (SPI_Config spiW cfgW).CTRL2 = spiW.CTRL2 ∧
     (SPI_Config spiW cfgW).STS = spiW.STS ∧
     (SPI_Config spiW cfgW).DATA = spiW.DATA ∧
     (SPI_Config spiW cfgW).TXCRC = spiW.TXCRC ∧
     (SPI_Config spiW cfgW).RXCRC = spiW.RXCRC) :=
  ⟨by decide, SPI_Config_correct spiW cfgW (by decide)⟩

/-- C2: the clear-flag operations do NOT enact the kind-specific clearing
protocols: started from a state whose status register is `0x0050` (overrun
bit 6 and CRC-error bit 4 both latched), clearing the overrun kind merely
clears the CRC-error status bit — the overrun flag stays latched at `0x0040`
and the data register is never read — for both the status-flag and the
interrupt-flag variant.  This contradicts the documented overrun protocol
(read data register, then read status register). -/
theorem SPI_ClearStatusFlag_overrun_not_cleared :
    (SPI_ClearStatusFlag ⟨0, 0, 0x0050, 9, 0, 0, 0⟩ SPI_FLAG_OVR).STS = 0x0040 ∧
    (SPI_ClearStatusFlag ⟨0, 0, 0x0050, 9, 0, 0, 0⟩ SPI_FLAG_OVR).DATA = 9 ∧
    (SPI_ClearIntFlag ⟨0, 0, 0x0050, 9, 0, 0, 0⟩ SPI_INT_OVR).STS = 0x0040 ∧
    (SPI_ClearStatusFlag ⟨0, 0, 0x0050, 9, 0, 0, 0⟩ SPI_FLAG_UDR).STS = 0x0040 ∧
    (SPI_ClearStatusFlag ⟨0, 0, 0x0050, 9, 0, 0, 0⟩ SPI_FLAG_ME).STS = 0x0040 := by
  decide

/-- C3: `SPI_ReadIntFlag` reports true exactly when both the control-2
enable mask for the kind (its flag value right-shifted by 8) and the
status-register mask for the kind select a set bit; in particular a set
status bit with the interrupt disabled reports false.  The operation is a
pure function of the state — its type `SPI_T → Nat → Bool` returns no new
state, so no register is modified. -/
theorem SPI_ReadIntFlag_pending_and_unmasked (spi : SPI_T) (flag : Nat) :
    SPI_ReadIntFlag spi flag = true ↔
      (spi.CTRL2 &&& (flag >>> 8) ≠ 0 ∧ spi.STS &&& flag ≠ 0) := by
  simp [SPI_ReadIntFlag]

/-- C4: `SPI_ConfigStructInit` is a pure function — the C signature receives
only the descriptor pointer, no peripheral pointer, so no register can be
affected — and for every incoming descriptor its result is exactly the
documented default: 2-line full-duplex, slave, 8-bit frames, clock-low idle,
first-edge phase, hardware NSS, divide-by-2 baud divisor, MSB-first, CRC
polynomial 7. -/
theorem SPI_ConfigStructInit_default (spiConfig : SPI_Config_T) :
    SPI_ConfigStructInit spiConfig =
      { direction := SPI_DIRECTION_2LINES_FULLDUPLEX
        mode := SPI_MODE_SLAVE
        length := SPI_DATA_LENGTH_8B
        polarity := SPI_CLKPOL_LOW
        phase := SPI_CLKPHA_1EDGE
        nss := SPI_NSS_HARD
        baudrateDiv := SPI_BAUDRATE_DIV_2
        firstBit := SPI_FIRSTBIT_MSB
        crcPolynomial := 7 } :=
  rfl

/-- C5: on every control-2 bit below 16, `SPI_EnableInterrupt` ORs in exactly
the bits of the kind's flag value right-shifted by 8 (so every bit outside
that mask keeps its old value), `SPI_DisableInterrupt` clears exactly those
same bits, and neither operation touches any register other than
control-2. -/
theorem SPI_EnableDisableInterrupt_shifted_mask (spi : SPI_T) (k j : Nat)
    (hj : j < 16) :
    (SPI_EnableInterrupt spi k).CTRL2.testBit j
        = (spi.CTRL2.testBit j || (k >>> 8).testBit j) ∧
    (SPI_DisableInterrupt spi k).CTRL2.testBit j
        = (spi.CTRL2.testBit j && !(k >>> 8).testBit j) ∧
    SPI_EnableInterrupt spi k = { spi with CTRL2 := (SPI_EnableInterrupt spi k).CTRL2 } ∧
    SPI_DisableInterrupt spi k = { spi with CTRL2 := (SPI_DisableInterrupt spi k).CTRL2 } := by
  have h32 : j < 32 := by omega
  refine ⟨?_, ?_, rfl, rfl⟩
  · simp [SPI_EnableInterrupt, testBit_mod_two_pow_16, hj]
  · simp [SPI_DisableInterrupt, testBit_mod_two_pow_16, testBit_mod_two_pow_32,
      testBit_mask_32 h32, Bool.true_xor, hj, h32]

/-- Witness for C5 at a concrete state, the transmit-buffer-empty interrupt
kind, and control-2 bit 7 (the enable bit `0x8002 >>> 8 = 0x80` selects). -/
theorem SPI_EnableDisableInterrupt_shifted_mask_witness :
    (7 : Nat) < 16 ∧
    ((SPI_EnableInterrupt spiW SPI_INT_TXBE).CTRL2.testBit 7
        = (spiW.CTRL2.testBit 7 || (SPI_INT_TXBE >>> 8).testBit 7) ∧
     (SPI_DisableInterrupt spiW SPI_INT_TXBE).CTRL2.testBit 7
        = (spiW.CTRL2.testBit 7 && !(SPI_INT_TXBE >>> 8).testBit 7) ∧
     SPI_EnableInterrupt spiW SPI_INT_TXBE
        = { spiW with CTRL2 := (SPI_EnableInterrupt spiW SPI_INT_TXBE).CTRL2 } ∧
     SPI_DisableInterrupt spiW SPI_INT_TXBE
        = { spiW with CTRL2 := (SPI_DisableInterrupt spiW SPI_INT_TXBE).CTRL2 }) :=
  ⟨by decide, SPI_EnableDisableInterrupt_shifted_mask spiW SPI_INT_TXBE 7 (by decide)⟩

/-- C6: the DMA-request operations with the transmit kind set or clear only
the `TXDEN` bit (bit 1) of control-2 — every bit `j ≠ 1`, in particular the
`RXDEN` bit 0, keeps its value — and with the receive kind only the `RXDEN`
bit (bit 0); no other register of the instance changes. -/
theorem SPI_DMA_request_bit_isolation (spi : SPI_T) (j : Nat) (hj : j < 16) :
    (SPI_EnableDMA spi SPI_DMA_REQ_TX).CTRL2.testBit j
        = (spi.CTRL2.testBit j || decide (TXDEN_pos = j)) ∧
    (SPI_DisableDMA spi SPI_DMA_REQ_TX).CTRL2.testBit j
        = (spi.CTRL2.testBit j && !decide (TXDEN_pos = j)) ∧
    (SPI_EnableDMA spi SPI_DMA_REQ_RX).CTRL2.testBit j
        = (spi.CTRL2.testBit j || decide (RXDEN_pos = j)) ∧
    (SPI_DisableDMA spi SPI_DMA_REQ_RX).CTRL2.testBit j
        = (spi.CTRL2.testBit j && !decide (RXDEN_pos = j)) ∧
    SPI_EnableDMA spi SPI_DMA_REQ_TX
        = { spi with CTRL2 := (SPI_EnableDMA spi SPI_DMA_REQ_TX).CTRL2 } ∧
    SPI_DisableDMA spi SPI_DMA_REQ_TX
        = { spi with CTRL2 := (SPI_DisableDMA spi SPI_DMA_REQ_TX).CTRL2 } ∧
    SPI_EnableDMA spi SPI_DMA_REQ_RX
        = { spi with CTRL2 := (SPI_EnableDMA spi SPI_DMA_REQ_RX).CTRL2 } ∧
    SPI_DisableDMA spi SPI_DMA_REQ_RX
        = { spi with CTRL2 := (SPI_DisableDMA spi SPI_DMA_REQ_RX).CTRL2 } := by
  have htx : SPI_DMA_REQ_TX = SPI_DMA_REQ_TX := rfl
  have hrx : SPI_DMA_REQ_RX ≠ SPI_DMA_REQ_TX := by decide
  refine ⟨?_, ?_, ?_, ?_, ?_, ?_, ?_, ?_⟩ <;>
    simp [SPI_EnableDMA, SPI_DisableDMA, bitSet16, bitReset16, hrx,
      Nat.testBit_two_pow, testBit_mask_16 hj, Bool.true_xor, hj]

/-- Witness for C6 at a concrete state and bit 0 (the receive-request bit,
unchanged by the transmit operations). -/
theorem SPI_DMA_request_bit_isolation_witness :
    (0 : Nat) < 16 ∧
    ((SPI_EnableDMA spiW SPI_DMA_REQ_TX).CTRL2.testBit 0
        = (spiW.CTRL2.testBit 0 || decide (TXDEN_pos = 0)) ∧
     (SPI_DisableDMA spiW SPI_DMA_REQ_TX).CTRL2.testBit 0
        = (spiW.CTRL2.testBit 0 && !decide (TXDEN_pos = 0)) ∧
     (SPI_EnableDMA spiW SPI_DMA_REQ_RX).CTRL2.testBit 0
        = (spiW.CTRL2.testBit 0 || decide (RXDEN_pos = 0)) ∧
     (SPI_DisableDMA spiW SPI_DMA_REQ_RX).CTRL2.testBit 0
        = (spiW.CTRL2.testBit 0 && !decide (RXDEN_pos = 0)) ∧
     SPI_EnableDMA spiW SPI_DMA_REQ_TX
        = { spiW with CTRL2 := (SPI_EnableDMA spiW SPI_DMA_REQ_TX).CTRL2 } ∧
     SPI_DisableDMA spiW SPI_DMA_REQ_TX
        = { spiW with CTRL2 := (SPI_DisableDMA spiW SPI_DMA_REQ_TX).CTRL2 } ∧
     SPI_EnableDMA spiW SPI_DMA_REQ_RX
        = { spiW with CTRL2 := (SPI_EnableDMA spiW SPI_DMA_REQ_RX).CTRL2 } ∧
     SPI_DisableDMA spiW SPI_DMA_REQ_RX
        = { spiW with CTRL2 := (SPI_DisableDMA spiW SPI_DMA_REQ_RX).CTRL2 }) :=
  ⟨by decide, SPI_DMA_request_bit_isolation spiW 0 (by decide)⟩

/-- C7: `SPI_Enable` and `SPI_Disable` are idempotent — a second call leaves
the whole register state of the first call unchanged — and each call touches
only the peripheral-enable bit `SPIEN` (bit 6) of control-1: every other
control-1 bit below 16 and every other register keeps its value.  Both are
total functions with no error path. -/
theorem SPI_Enable_Disable_idempotent (spi : SPI_T) (j : Nat) (hj : j < 16) :
    SPI_Enable (SPI_Enable spi) = SPI_Enable spi ∧
    SPI_Disable (SPI_Disable spi) = SPI_Disable spi ∧
    (SPI_Enable spi).CTRL1.testBit j = (spi.CTRL1.testBit j || decide (SPIEN_pos = j)) ∧
    (SPI_Disable spi).CTRL1.testBit j = (spi.CTRL1.testBit j && !decide (SPIEN_pos = j)) ∧
    SPI_Enable spi = { spi with CTRL1 := (SPI_Enable spi).CTRL1 } ∧
    SPI_Disable spi = { spi with CTRL1 := (SPI_Disable spi).CTRL1 } := by
  refine ⟨?_, ?_, ?_, ?_, rfl, rfl⟩
  · simp [SPI_Enable, bitSet16, Nat.or_assoc]
  · simp [SPI_Disable, bitReset16, Nat.and_assoc]
  · simp [SPI_Enable, bitSet16, Nat.testBit_two_pow]
  · simp [SPI_Disable, bitReset16, Nat.testBit_two_pow, testBit_mask_16 hj,
      Bool.true_xor, hj]

/-- Witness for C7 at a concrete state and control-1 bit 3. -/
theorem SPI_Enable_Disable_idempotent_witness :
    (3 : Nat) < 16 ∧
    (SPI_Enable (SPI_Enable spiW) = SPI_Enable spiW ∧
     SPI_Disable (SPI_Disable spiW) = SPI_Disable spiW ∧
     (SPI_Enable spiW).CTRL1.testBit 3 = (spiW.CTRL1.testBit 3 || decide (SPIEN_pos = 3)) ∧
     (SPI_Disable spiW).CTRL1.testBit 3 = (spiW.CTRL1.testBit 3 && !decide (SPIEN_pos = 3)) ∧
     SPI_Enable spiW = { spiW with CTRL1 := (SPI_Enable spiW).CTRL1 } ∧
     SPI_Disable spiW = { spiW with CTRL1 := (SPI_Disable spiW).CTRL1 }) :=
  ⟨by decide, SPI_Enable_Disable_idempotent spiW 3 (by decide)⟩

/-- C8: `SPI_ClearStatusFlag` with the CRC-error kind clears exactly the
CRC-error status bit (bit 4): every other status bit below 16 keeps its
value, and no other register of the instance changes. -/
theorem SPI_ClearStatusFlag_crce_only (spi : SPI_T) (j : Nat) (hj : j < 16) :
    (SPI_ClearStatusFlag spi SPI_FLAG_CRCE).STS.testBit j
        = (spi.STS.testBit j && !decide (CRCEFLG_pos = j)) ∧
    SPI_ClearStatusFlag spi SPI_FLAG_CRCE
        = { spi with STS := (SPI_ClearStatusFlag spi SPI_FLAG_CRCE).STS } := by
  refine ⟨?_, rfl⟩
  simp [SPI_ClearStatusFlag, bitReset16, Nat.testBit_two_pow, testBit_mask_16 hj,
    Bool.true_xor, hj]

/-- Witness for C8 at a concrete state, status bit 6 (the overrun bit,
untouched by the clear). -/
theorem SPI_ClearStatusFlag_crce_only_witness :
    (6 : Nat) < 16 ∧
    ((SPI_ClearStatusFlag spiW SPI_FLAG_CRCE).STS.testBit 6
        = (spiW.STS.testBit 6 && !decide (CRCEFLG_pos = 6)) ∧
     SPI_ClearStatusFlag spiW SPI_FLAG_CRCE
        = { spiW with STS := (SPI_ClearStatusFlag spiW SPI_FLAG_CRCE).STS }) :=
  ⟨by decide, SPI_ClearStatusFlag_crce_only spiW 6 (by decide)⟩

/-- C9: `SPI_ClearStatusFlag` and `SPI_ClearIntFlag` are extensionally equal
and both ignore their flag argument: for every state and every pair of
requested kinds the two operations produce the identical resulting state. -/
theorem SPI_clear_flag_variants_equal (spi : SPI_T) (f g : Nat) :
    SPI_ClearStatusFlag spi f = SPI_ClearIntFlag spi g ∧
    SPI_ClearStatusFlag spi f = SPI_ClearStatusFlag spi g ∧
    SPI_ClearIntFlag spi f = SPI_ClearIntFlag spi g :=
  ⟨rfl, rfl, rfl⟩

/-- C10: every DMA request-kind argument other than `SPI_DMA_REQ_TX` — not
only `SPI_DMA_REQ_RX` — falls into the `else` branch and operates on the
receive-request enable bit, for both the enable and the disable
operation. -/
theorem SPI_DMA_nonTransmit_is_receive (spi : SPI_T) (k : Nat)
    (hk : k ≠ SPI_DMA_REQ_TX) :
    SPI_EnableDMA spi k = SPI_EnableDMA spi SPI_DMA_REQ_RX ∧
    SPI_DisableDMA spi k = SPI_DisableDMA spi SPI_DMA_REQ_RX := by
  have hrx : SPI_DMA_REQ_RX ≠ SPI_DMA_REQ_TX := by decide
  constructor <;> simp [SPI_EnableDMA, SPI_DisableDMA, hk, hrx]

/-- Witness for C10 at the out-of-enumeration request value 7. -/
theorem SPI_DMA_nonTransmit_is_receive_witness :
    (7 : Nat) ≠ SPI_DMA_REQ_TX ∧
    (SPI_EnableDMA spiW 7 = SPI_EnableDMA spiW SPI_DMA_REQ_RX ∧
     SPI_DisableDMA spiW 7 = SPI_DisableDMA spiW SPI_DMA_REQ_RX) :=
  ⟨by decide, SPI_DMA_nonTransmit_is_receive spiW 7 (by decide)⟩

end Apm32Spi
